import Mathlib

/-!
Verification of the Mistral AI speech-to-text Home Assistant integration.

The development shallowly embeds the two integration variants found in the
repository:

* `custom_components/mistral_ai_stt` — the config-entry based
  `MistralAISpeechToTextEntity` (stt.py), its config flow (config_flow.py)
  and constants (const.py);
* `custom_components/mistralai_stt` — the legacy `MistralAISTTProvider`
  (stt.py).

Python's `wave` module (used by both variants to frame raw PCM bytes into a
WAV container) is modelled byte-for-byte for the 44-byte header it writes
into a seekable stream, together with the validation it performs
(`setnchannels` rejects a channel count below 1, `setsampwidth` rejects a
sample width outside 1..4, `setframerate` rejects a zero rate) and the
range checks of `struct.pack` on the `<H`/`<I` header fields.

The Mistral SDK's streaming response is modelled as the sequence of values
the `async for` loop would observe: each step either yields an event
(`TranscriptionStreamDone` or any non-terminal event) or raises.  A raise
during submission itself is a separate outcome.  Results are
`SpeechResult` values exactly as constructed by the source.
-/

namespace MistralSTT

/-! ## Data model (homeassistant.components.stt types used by the source) -/

/-- `SpeechResultState` from homeassistant.components.stt. -/
inductive SpeechResultState where
  | success
  | error
deriving DecidableEq, Repr

/-- `SpeechResult(text, result)` from homeassistant.components.stt. -/
structure SpeechResult where
  text : String
  result : SpeechResultState
deriving DecidableEq, Repr

/-- The fields of `SpeechMetadata` read by `async_process_audio_stream`:
`metadata.language`, `metadata.channel`, `metadata.bit_rate`,
`metadata.sample_rate`.  The numeric fields are integers at Python runtime
(the `IntEnum` annotations are not enforced), so they are embedded as
naturals. -/
structure SpeechMetadata where
  language : String
  channel : Nat
  bit_rate : Nat
  sample_rate : Nat
deriving DecidableEq, Repr

/-- `AudioFormats` members referenced by the repository. -/
inductive AudioFormats where
  | wav
  | ogg
deriving DecidableEq, Repr

/-- `AudioCodecs` members referenced by the repository. -/
inductive AudioCodecs where
  | pcm
  | opus
deriving DecidableEq, Repr

/-- `AudioBitRates` members (bit depth in bits). -/
inductive AudioBitRates where
  | bitrate8
  | bitrate16
  | bitrate24
  | bitrate32
deriving DecidableEq, Repr

/-- `AudioSampleRates` members referenced by the repository. -/
inductive AudioSampleRates where
  | sr16000
deriving DecidableEq, Repr

/-- `AudioChannels` members. -/
inductive AudioChannels where
  | mono
  | stereo
deriving DecidableEq, Repr

/-! ## WAV framing (Python `wave` module writing into a `BytesIO`) -/

/-- The distinct failures `wave.Error` / `struct.error` can raise while the
source builds the WAV payload (stt.py: `wave.open` … `writeframes`). -/
inductive FramingError where
  | badChannels
  | badSampWidth
  | badFrameRate
  | packOverflow
deriving DecidableEq, Repr

/-- Little-endian 16-bit field as written by `struct.pack('<H', n)`. -/
def u16le (n : Nat) : List Nat := [n % 256, n / 256 % 256]

/-- Little-endian 32-bit field as written by `struct.pack('<I', n)`. -/
def u32le (n : Nat) : List Nat :=
  [n % 256, n / 256 % 256, n / 65536 % 256, n / 16777216 % 256]

/-- The 44-byte WAV header `wave.py` leaves in the stream after `close`
patches the length fields: `RIFF`, riff size, `WAVE`, `fmt `, fmt size 16,
PCM tag 1, channels, frame rate, byte rate, block align, bits per sample,
`data`, data size. -/
def wavHeader (nch sw rate dlen : Nat) : List Nat :=
  [82, 73, 70, 70] ++ u32le (36 + dlen) ++
  [87, 65, 86, 69] ++ [102, 109, 116, 32] ++ u32le 16 ++
  u16le 1 ++ u16le nch ++ u32le rate ++ u32le (nch * rate * sw) ++
  u16le (nch * sw) ++ u16le (sw * 8) ++
  [100, 97, 116, 97] ++ u32le dlen

/-- The framing step of `async_process_audio_stream`: `setnchannels`
(rejects `nchannels < 1`), `setsampwidth` with `bit_rate // 8` (rejects a
width outside 1..4), `setframerate` (rejects 0), `writeframes` of the whole
buffer; the header fields must fit `struct.pack`'s `<H`/`<I` ranges.  On
success the value of the `BytesIO` is the header followed by the raw
bytes. -/
def framing (nch bits rate : Nat) (data : List Nat) :
    Except FramingError (List Nat) :=
  if nch < 1 then .error .badChannels
  else if bits / 8 < 1 ∨ 4 < bits / 8 then .error .badSampWidth
  else if rate = 0 then .error .badFrameRate
  else if 65536 ≤ nch ∨ 65536 ≤ nch * (bits / 8) ∨
          4294967296 ≤ rate ∨ 4294967296 ≤ nch * rate * (bits / 8) ∨
          4294967296 ≤ 36 + data.length
  then .error .packOverflow
  else .ok (wavHeader nch (bits / 8) rate data.length ++ data)

/-- Framing applied to the metadata fields the source passes to `wave`:
`wf.setnchannels(metadata.channel)`, `wf.setsampwidth(metadata.bit_rate // 8)`,
`wf.setframerate(metadata.sample_rate)`, `wf.writeframes(audio_data)`. -/
def frameAudio (md : SpeechMetadata) (data : List Nat) :
    Except FramingError (List Nat) :=
  framing md.channel md.bit_rate md.sample_rate data

/-- Read a little-endian 16-bit value from the head of a byte list. -/
def parseU16 : List Nat → Nat
  | a :: b :: _ => a + 256 * b
  | _ => 0

/-- Read a little-endian 32-bit value from the head of a byte list. -/
def parseU32 : List Nat → Nat
  | a :: b :: c :: d :: _ => a + 256 * b + 65536 * c + 16777216 * d
  | _ => 0

/-- The channel count a WAV container declares (bytes 22–23). -/
def declaredNChannels (bs : List Nat) : Nat := parseU16 (bs.drop 22)

/-- The frame rate a WAV container declares (bytes 24–27). -/
def declaredFrameRate (bs : List Nat) : Nat := parseU32 (bs.drop 24)

/-- The sample width a WAV container declares: its bits-per-sample field
(bytes 34–35) divided by 8. -/
def declaredSampWidth (bs : List Nat) : Nat := parseU16 (bs.drop 34) / 8

/-! ## Streaming transcription response -/

/-- One decoded event of the response stream: `chunk.data` is either
`TranscriptionStreamDone` (carrying the final text) or some non-terminal
event, which the loop skips. -/
inductive TranscriptionEvent where
  | delta (text : String)
  | done (text : String)
deriving DecidableEq, Repr

/-- Whether an event is the terminal `TranscriptionStreamDone`. -/
def TranscriptionEvent.isDone : TranscriptionEvent → Bool
  | .done _ => true
  | .delta _ => false

/-- An exception value raised by the SDK or transport. -/
structure PyErr where
  msg : String
deriving DecidableEq, Repr

/-- One step of iterating the response: either the next event, or the
iteration raises. -/
abbrev StreamItem := Except PyErr TranscriptionEvent

/-- Outcome of `self._client.audio.transcriptions.stream_async(...)`:
either the submission call itself raises, or it returns a stream whose
iteration yields the given items in order (iteration stops at the first
raising item). -/
inductive SubmitOutcome where
  | raised (e : PyErr)
  | stream (items : List StreamItem)

/-- The `async for chunk in response` loop of both variants: skip
non-terminal events; at `TranscriptionStreamDone` return its text with
SUCCESS; if iteration raises, the surrounding `except` yields ERROR; if
the stream is exhausted with no terminal event, yield ERROR. -/
def consumeItems : List StreamItem → SpeechResult
  | [] => { text := "", result := .error }
  | .error _ :: _ => { text := "", result := .error }
  | .ok (.done t) :: _ => { text := t, result := .success }
  | .ok (.delta _) :: rest => consumeItems rest

/-- The same loop, additionally reporting the suffix of items it never
pulled from the stream. -/
def consumeItemsTrace : List StreamItem → SpeechResult × List StreamItem
  | [] => ({ text := "", result := .error }, [])
  | .error _ :: rest => ({ text := "", result := .error }, rest)
  | .ok (.done t) :: rest => ({ text := t, result := .success }, rest)
  | .ok (.delta _) :: rest => consumeItemsTrace rest

/-- The `try` block around submission and consumption: a raise during
submission is caught and converted to ERROR; otherwise the stream is
consumed. -/
def processOutcome : SubmitOutcome → SpeechResult
  | .raised _ => { text := "", result := .error }
  | .stream items => consumeItems items

/-! ## The entity variant (custom_components/mistral_ai_stt) -/

/-- The state of `MistralAISpeechToTextEntity` read or writable by
`async_process_audio_stream`: the client handle built from the config
entry's data, and `self._stt_model`. -/
structure STTEntity where
  clientApiKey : Option String
  clientServerUrl : Option String
  stt_model : String
deriving DecidableEq, Repr

/-- The keyword arguments of the `stream_async` call (stt.py lines
180–189): model, WAV payload wrapped in `File`, language, temperature. -/
structure TranscriptionRequest where
  model : String
  payload : List Nat
  file_name : String
  content_type : String
  language : String
  temperature : Nat
deriving DecidableEq, Repr

/-- The request the entity constructs for a given WAV payload
(`model=self._stt_model`, `File(content=…, file_name="audio.wav",
content_type="audio/wav")`, `language=metadata.language`,
`temperature=0.0`). -/
def buildRequest (e : STTEntity) (md : SpeechMetadata) (wav : List Nat) :
    TranscriptionRequest :=
  { model := e.stt_model
    payload := wav
    file_name := "audio.wav"
    content_type := "audio/wav"
    language := md.language
    temperature := 0 }

/-- `MistralAISpeechToTextEntity.async_process_audio_stream`
(mistral_ai_stt/stt.py lines 144–200): join the chunks of the incoming
stream, frame them as WAV — this `wave.open` block is wrapped in
`try/except`, so a framing failure returns an ERROR result — then submit
and consume the response under a second `try/except`.  The method assigns
no attribute of `self`, so the entity state is returned unchanged. -/
def async_process_audio_stream (e : STTEntity) (md : SpeechMetadata)
    (stream : List (List Nat)) (outcome : SubmitOutcome) :
    SpeechResult × STTEntity :=
  match frameAudio md stream.flatten with
  | .error _ => ({ text := "", result := .error }, e)
  | .ok _wav => (processOutcome outcome, e)

/-! ## The provider variant (custom_components/mistralai_stt) -/

/-- The state of `MistralAISTTProvider` relevant to its request path. -/
structure MistralAISTTProvider where
  api_key : String
  api_url : String
  model : String
  prompt : String
  temperature : Nat
deriving DecidableEq, Repr

/-- `MistralAISTTProvider.async_process_audio_stream`
(mistralai_stt/stt.py lines 237–285): identical consumption loop, but its
`wave.open` block is NOT inside any `try`, so a framing failure propagates
to the caller — modelled by the `Except` return type. -/
def provider_process_audio_stream (p : MistralAISTTProvider)
    (md : SpeechMetadata) (stream : List (List Nat))
    (outcome : SubmitOutcome) :
    Except FramingError (SpeechResult × MistralAISTTProvider) :=
  match frameAudio md stream.flatten with
  | .error err => .error err
  | .ok _wav => .ok (processOutcome outcome, p)

/-! ## Capability surface of the entity -/

/-- `MistralAISpeechToTextEntity.supported_formats` (stt.py line 102). -/
def supported_formats (_e : STTEntity) : List AudioFormats := [.wav]

/-- `MistralAISpeechToTextEntity.supported_codecs` (stt.py line 112). -/
def supported_codecs (_e : STTEntity) : List AudioCodecs := [.pcm]

/-- `MistralAISpeechToTextEntity.supported_bit_rates` (stt.py line 122). -/
def supported_bit_rates (_e : STTEntity) : List AudioBitRates := [.bitrate16]

/-- `MistralAISpeechToTextEntity.supported_sample_rates` (stt.py line 132). -/
def supported_sample_rates (_e : STTEntity) : List AudioSampleRates :=
  [.sr16000]

/-- `MistralAISpeechToTextEntity.supported_channels` (stt.py line 142). -/
def supported_channels (_e : STTEntity) : List AudioChannels := [.mono]

/-! ## Constants and config flow (const.py, config_flow.py) -/

def CONF_API_KEY : String := "api_key"
def CONF_URL : String := "url"
def CONF_MODEL : String := "model"
def DOMAIN : String := "mistral_ai_stt"
def DEFAULT_API_URL : String := "https://api.mistral.ai"
def DEFAULT_STT_MODEL : String := "voxtral-mini-latest"

/-- The values collected by the config flow's schema (`CONF_API_KEY`,
`CONF_URL`, `CONF_MODEL`). -/
structure UserInput where
  api_key : String
  url : String
  model : String
deriving DecidableEq, Repr

/-- The dictionary the flow passes as `data` to `async_create_entry`. -/
def userInputData (ui : UserInput) : List (String × String) :=
  [(CONF_API_KEY, ui.api_key), (CONF_URL, ui.url), (CONF_MODEL, ui.model)]

/-- A Home Assistant config entry as this integration uses it: title,
`data` (set at creation) and `options` (empty at creation; `async_create_entry`
is not given any options). -/
structure ConfigEntry where
  title : String
  data : List (String × String)
  options : List (String × String)
deriving DecidableEq, Repr

/-- How `validate_input`'s probe call (`models.retrieve_async`) ends. -/
inductive ValidationOutcome where
  | ok
  | sdkError (status_code : Nat)
  | connectError
  | unhandled
deriving DecidableEq, Repr

/-- The error classification performed by the `except` arms of
`async_step_api` (config_flow.py lines 56–70): `SDKError` with status 401
→ "invalid_auth", other `SDKError` → "unknown", `httpx.ConnectError` →
"cannot_connect", anything else → "unknown". -/
def classifyValidation : ValidationOutcome → Option String
  | .ok => none
  | .sdkError c => if c = 401 then some "invalid_auth" else some "unknown"
  | .connectError => some "cannot_connect"
  | .unhandled => some "unknown"

/-- The local `errors` dict after the `try/except` of `async_step_api`. -/
def flowErrors (v : ValidationOutcome) : List (String × String) :=
  match classifyValidation v with
  | none => []
  | some e => [("base", e)]

/-- The result of one step of the flow. -/
inductive FlowResult where
  | abort
  | showForm
  | createEntry (entry : ConfigEntry)
deriving DecidableEq, Repr

/-- `MistralAISTTConfigFlow.async_step_api` (config_flow.py lines 49–84):
with no user input, show the form; otherwise abort on a matching existing
entry, run validation filling the local `errors` dict — and then
unconditionally call `async_create_entry(title=DOMAIN, data=user_input)`
(lines 72–75), whether or not `errors` is non-empty. -/
def async_step_api (user_input : Option UserInput)
    (validation : ValidationOutcome) (matchesExisting : Bool) : FlowResult :=
  match user_input with
  | none => .showForm
  | some ui =>
      if matchesExisting then .abort
      else
        let _errors := flowErrors validation
        .createEntry { title := DOMAIN, data := userInputData ui, options := [] }

/-- `MistralAISpeechToTextEntity.__init__` (stt.py lines 61–82) combined
with the client construction of `async_setup_entry` (lines 36–44): the
client reads `data[CONF_API_KEY]` and `data[CONF_URL]`, while
`self._stt_model = config_entry.options.get(CONF_MODEL, DEFAULT_STT_MODEL)`
reads the entry's OPTIONS. -/
def entityFromEntry (entry : ConfigEntry) : STTEntity :=
  { clientApiKey := entry.data.lookup CONF_API_KEY
    clientServerUrl := entry.data.lookup CONF_URL
    stt_model := (entry.options.lookup CONF_MODEL).getD DEFAULT_STT_MODEL }

/-! ## Helper lemmas -/

/-- Skipping a prefix of non-terminal events does not change what the
consumption loop returns. -/
theorem consumeItems_deltas_append (pre : List TranscriptionEvent)
    (h : ∀ ev ∈ pre, ev.isDone = false) (l : List StreamItem) :
    consumeItems (pre.map Except.ok ++ l) = consumeItems l := by
  induction pre with
  | nil => rfl
  | cons a pre ih =>
      cases a with
      | delta s =>
          simpa [consumeItems] using
            ih (fun ev hev => h ev (List.mem_cons_of_mem _ hev))
      | done t =>
          exact absurd (h (.done t) (List.mem_cons_self _ _)) (by
            simp [TranscriptionEvent.isDone])

/-- The traced loop likewise skips a prefix of non-terminal events. -/
theorem consumeItemsTrace_deltas_append (pre : List TranscriptionEvent)
    (h : ∀ ev ∈ pre, ev.isDone = false) (l : List StreamItem) :
    consumeItemsTrace (pre.map Except.ok ++ l) = consumeItemsTrace l := by
  induction pre with
  | nil => rfl
  | cons a pre ih =>
      cases a with
      | delta s =>
          simpa [consumeItemsTrace] using
            ih (fun ev hev => h ev (List.mem_cons_of_mem _ hev))
      | done t =>
          exact absurd (h (.done t) (List.mem_cons_self _ _)) (by
            simp [TranscriptionEvent.isDone])

/-- When the metadata passes every check of `wave.py` and of
`struct.pack`, the framing step succeeds and its value is the header
followed by the raw bytes. -/
theorem framing_eq_ok (nch bits rate : Nat) (data : List Nat)
    (h1 : 1 ≤ nch) (hsw1 : 1 ≤ bits / 8) (hsw4 : bits / 8 ≤ 4) (h5 : 0 < rate)
    (h6 : nch * (bits / 8) < 65536)
    (h7 : nch * rate * (bits / 8) < 4294967296)
    (h8 : 36 + data.length < 4294967296) :
    framing nch bits rate data
      = .ok (wavHeader nch (bits / 8) rate data.length ++ data) := by
  have hnch : nch < 65536 :=
    lt_of_le_of_lt (le_mul_of_one_le_right (Nat.zero_le _) hsw1) h6
  have hrate : rate < 4294967296 := by
    refine lt_of_le_of_lt ?_ h7
    calc rate ≤ nch * rate := le_mul_of_one_le_left (Nat.zero_le _) h1
      _ ≤ nch * rate * (bits / 8) :=
          le_mul_of_one_le_right (Nat.zero_le _) hsw1
  have hbig : ¬(65536 ≤ nch ∨ 65536 ≤ nch * (bits / 8) ∨
      4294967296 ≤ rate ∨ 4294967296 ≤ nch * rate * (bits / 8) ∨
      4294967296 ≤ 36 + data.length) := by
    push_neg
    exact ⟨hnch, h6, hrate, h7, h8⟩
  unfold framing
  rw [if_neg (by omega), if_neg (by omega), if_neg (by omega), if_neg hbig]

/-- The header fields written by the framer parse back to the values it
was given, for in-range values. -/
theorem declared_fields_wavHeader (nch sw rate dlen : Nat) (data : List Nat)
    (h1 : nch < 65536) (h2 : sw ≤ 4) (h3 : rate < 4294967296) :
    declaredNChannels (wavHeader nch sw rate dlen ++ data) = nch ∧
    declaredSampWidth (wavHeader nch sw rate dlen ++ data) = sw ∧
    declaredFrameRate (wavHeader nch sw rate dlen ++ data) = rate := by
  refine ⟨?_, ?_, ?_⟩
  · have e : declaredNChannels (wavHeader nch sw rate dlen ++ data)
        = nch % 256 + 256 * (nch / 256 % 256) := rfl
    omega
  · have e : declaredSampWidth (wavHeader nch sw rate dlen ++ data)
        = (sw * 8 % 256 + 256 * (sw * 8 / 256 % 256)) / 8 := rfl
    omega
  · have e : declaredFrameRate (wavHeader nch sw rate dlen ++ data)
        = rate % 256 + 256 * (rate / 256 % 256) + 65536 * (rate / 65536 % 256)
          + 16777216 * (rate / 16777216 % 256) := rfl
    omega

/-! ## Claim theorems -/

/-- C1: for every event sequence whose elements are consumed in order and
that ends in a terminal `done` event carrying text `T`,
`async_process_audio_stream` returns a `SpeechResult` with status SUCCESS
and text exactly `T`, regardless of how many intermediate (non-terminal)
events precede the terminal event. -/
theorem c1_terminal_done_yields_success (e : STTEntity) (md : SpeechMetadata)
    (stream : List (List Nat)) (pre : List TranscriptionEvent) (T : String)
    (hpre : ∀ ev ∈ pre, ev.isDone = false)
    (hframe : ∃ wav, frameAudio md stream.flatten = Except.ok wav) :
    async_process_audio_stream e md stream
        (.stream (pre.map Except.ok ++ [Except.ok (.done T)]))
      = ({ text := T, result := .success }, e) := by
  obtain ⟨wav, hw⟩ := hframe
  simp only [async_process_audio_stream, hw]
  simp only [processOutcome]
  rw [consumeItems_deltas_append pre hpre]
  rfl

/-- Witness for C1 at a concrete input: one intermediate event, then the
terminal event carrying "hello world". -/
theorem c1_witness :
    (∀ ev ∈ [TranscriptionEvent.delta "he"], ev.isDone = false) ∧
    (∃ wav, frameAudio
        { language := "en", channel := 1, bit_rate := 16, sample_rate := 16000 }
        (List.flatten []) = Except.ok wav) ∧
    async_process_audio_stream ⟨none, none, "voxtral-mini-latest"⟩
        { language := "en", channel := 1, bit_rate := 16, sample_rate := 16000 }
        []
        (.stream ([TranscriptionEvent.delta "he"].map Except.ok ++
          [Except.ok (.done "hello world")]))
      = ({ text := "hello world", result := .success },
         ⟨none, none, "voxtral-mini-latest"⟩) :=
  ⟨by decide, ⟨_, rfl⟩,
    c1_terminal_done_yields_success _ _ _ _ _ (by decide) ⟨_, rfl⟩⟩

/-- C2: for every event sequence that is exhausted without ever producing
a terminal `done` event (including the empty sequence),
`async_process_audio_stream` returns a `SpeechResult` with status ERROR
and empty text. -/
theorem c2_exhausted_yields_error (e : STTEntity) (md : SpeechMetadata)
    (stream : List (List Nat)) (evs : List TranscriptionEvent)
    (hevs : ∀ ev ∈ evs, ev.isDone = false)
    (hframe : ∃ wav, frameAudio md stream.flatten = Except.ok wav) :
    async_process_audio_stream e md stream (.stream (evs.map Except.ok))
      = ({ text := "", result := .error }, e) := by
  obtain ⟨wav, hw⟩ := hframe
  simp only [async_process_audio_stream, hw]
  simp only [processOutcome]
  have hc : consumeItems (evs.map Except.ok) = { text := "", result := .error } :=
    calc consumeItems (evs.map Except.ok)
        = consumeItems (evs.map Except.ok ++ []) := by simp
      _ = consumeItems [] := consumeItems_deltas_append evs hevs []
      _ = { text := "", result := .error } := rfl
  rw [hc]

/-- Witness for C2 at a concrete input: the stream closes with zero
events. -/
theorem c2_witness :
    (∀ ev ∈ ([] : List TranscriptionEvent), ev.isDone = false) ∧
    (∃ wav, frameAudio
        { language := "en", channel := 1, bit_rate := 16, sample_rate := 16000 }
        (List.flatten []) = Except.ok wav) ∧
    async_process_audio_stream ⟨none, none, "voxtral-mini-latest"⟩
        { language := "en", channel := 1, bit_rate := 16, sample_rate := 16000 }
        [] (.stream (([] : List TranscriptionEvent).map Except.ok))
      = ({ text := "", result := .error },
         ⟨none, none, "voxtral-mini-latest"⟩) :=
  ⟨by decide, ⟨_, rfl⟩,
    c2_exhausted_yields_error _ _ _ _ (by decide) ⟨_, rfl⟩⟩

/-- C3: an exception raised by the submission call, or while consuming the
event sequence (before a terminal event is seen), makes both variants of
`async_process_audio_stream` return ERROR with empty text; neither lets
the exception escape — the entity variant is total and the provider
variant returns `.ok` rather than `.error` here. -/
theorem c3_exception_yields_error (e : STTEntity) (p : MistralAISTTProvider)
    (md : SpeechMetadata) (stream : List (List Nat)) (err : PyErr)
    (pre : List TranscriptionEvent) (post : List StreamItem)
    (hpre : ∀ ev ∈ pre, ev.isDone = false)
    (hframe : ∃ wav, frameAudio md stream.flatten = Except.ok wav) :
    async_process_audio_stream e md stream (.raised err)
      = ({ text := "", result := .error }, e)
    ∧ async_process_audio_stream e md stream
        (.stream (pre.map Except.ok ++ Except.error err :: post))
      = ({ text := "", result := .error }, e)
    ∧ provider_process_audio_stream p md stream (.raised err)
      = Except.ok ({ text := "", result := .error }, p)
    ∧ provider_process_audio_stream p md stream
        (.stream (pre.map Except.ok ++ Except.error err :: post))
      = Except.ok ({ text := "", result := .error }, p) := by
  obtain ⟨wav, hw⟩ := hframe
  refine ⟨?_, ?_, ?_, ?_⟩ <;>
    simp only [async_process_audio_stream, provider_process_audio_stream, hw,
      processOutcome, consumeItems_deltas_append pre hpre] <;>
    rfl

/-- Witness for C3 at a concrete input: the raise happens after one
intermediate event. -/
theorem c3_witness :
    (∀ ev ∈ [TranscriptionEvent.delta "he"], ev.isDone = false) ∧
    (∃ wav, frameAudio
        { language := "en", channel := 1, bit_rate := 16, sample_rate := 16000 }
        (List.flatten []) = Except.ok wav) ∧
    async_process_audio_stream ⟨none, none, "voxtral-mini-latest"⟩
        { language := "en", channel := 1, bit_rate := 16, sample_rate := 16000 }
        [] (.raised ⟨"connection dropped"⟩)
      = ({ text := "", result := .error },
         ⟨none, none, "voxtral-mini-latest"⟩) ∧
    provider_process_audio_stream ⟨"k", "u", "voxtral-mini-latest", "", 0⟩
        { language := "en", channel := 1, bit_rate := 16, sample_rate := 16000 }
        [] (.stream ([TranscriptionEvent.delta "he"].map Except.ok ++
          Except.error ⟨"connection dropped"⟩ :: []))
      = Except.ok ({ text := "", result := .error },
         ⟨"k", "u", "voxtral-mini-latest", "", 0⟩) :=
  ⟨by decide, ⟨_, rfl⟩,
    (c3_exception_yields_error ⟨none, none, "voxtral-mini-latest"⟩
      ⟨"k", "u", "voxtral-mini-latest", "", 0⟩
      { language := "en", channel := 1, bit_rate := 16, sample_rate := 16000 }
      [] ⟨"connection dropped"⟩ [TranscriptionEvent.delta "he"] []
      (by decide) (by exact ⟨_, rfl⟩)).1,
    (c3_exception_yields_error ⟨none, none, "voxtral-mini-latest"⟩
      ⟨"k", "u", "voxtral-mini-latest", "", 0⟩
      { language := "en", channel := 1, bit_rate := 16, sample_rate := 16000 }
      [] ⟨"connection dropped"⟩ [TranscriptionEvent.delta "he"] []
      (by decide) (by exact ⟨_, rfl⟩)).2.2.2⟩

/-- C4: evaluation of the setup flow at a failing input.  When the probe
call is rejected with HTTP 401, the `except SDKError` arm classifies the
failure as "invalid_auth" — but `async_step_api` then still calls
`async_create_entry`, so the configuration entry IS persisted, contrary to
the claim (and to the spec's stated intent that validation errors block
persistence). -/
theorem c4_auth_error_still_creates_entry :
    classifyValidation (.sdkError 401) = some "invalid_auth"
    ∧ flowErrors (.sdkError 401) = [("base", "invalid_auth")]
    ∧ async_step_api
        (some ⟨"bad-key", DEFAULT_API_URL, DEFAULT_STT_MODEL⟩)
        (.sdkError 401) false
      = .createEntry
          { title := DOMAIN
            data := userInputData ⟨"bad-key", DEFAULT_API_URL, DEFAULT_STT_MODEL⟩
            options := [] } :=
  ⟨rfl, rfl, rfl⟩

/-- C5 counterexample: the metadata `channel = 1`, `bit_rate = 40`,
`sample_rate = 16000` satisfies every hypothesis of the claim
(channelCount ≥ 1, bitDepth a multiple of 8, sampleRate > 0), yet the
framing step produces no container at all: `setsampwidth(40 // 8)` raises
`wave.Error` because the width 5 exceeds 4. -/
theorem c5_counterexample :
    (1 ≥ 1 ∧ 40 % 8 = 0 ∧ 16000 > 0) ∧
    frameAudio
        { language := "en", channel := 1, bit_rate := 40, sample_rate := 16000 }
        []
      = Except.error FramingError.badSampWidth :=
  ⟨⟨le_refl 1, rfl, by omega⟩, rfl⟩

/-- C5 (amended): for metadata whose bit depth is a multiple of 8 lying
between 8 and 32 (so that the sample width `bit_rate / 8` is in the range
1..4 accepted by `wave.setsampwidth`), whose channel count is at least 1,
whose sample rate is positive, and whose derived header fields fit the
16/32-bit container fields, the framing step succeeds and the produced WAV
container declares exactly the metadata's channel count, sample width and
frame rate. -/
theorem c5_framing_declares_metadata (md : SpeechMetadata) (data : List Nat)
    (hch : 1 ≤ md.channel) (hmul : md.bit_rate % 8 = 0)
    (hlo : 8 ≤ md.bit_rate) (hhi : md.bit_rate ≤ 32)
    (hsr : 0 < md.sample_rate)
    (hba : md.channel * (md.bit_rate / 8) < 65536)
    (hbr : md.channel * md.sample_rate * (md.bit_rate / 8) < 4294967296)
    (hdl : 36 + data.length < 4294967296) :
    ∃ bs, frameAudio md data = Except.ok bs
      ∧ declaredNChannels bs = md.channel
      ∧ declaredSampWidth bs = md.bit_rate / 8
      ∧ declaredFrameRate bs = md.sample_rate := by
  have hsw1 : 1 ≤ md.bit_rate / 8 := by omega
  have hsw4 : md.bit_rate / 8 ≤ 4 := by omega
  have hnch : md.channel < 65536 :=
    lt_of_le_of_lt (le_mul_of_one_le_right (Nat.zero_le _) hsw1) hba
  have hrate : md.sample_rate < 4294967296 := by
    refine lt_of_le_of_lt ?_ hbr
    calc md.sample_rate
        ≤ md.channel * md.sample_rate :=
          le_mul_of_one_le_left (Nat.zero_le _) hch
      _ ≤ md.channel * md.sample_rate * (md.bit_rate / 8) :=
          le_mul_of_one_le_right (Nat.zero_le _) hsw1
  refine ⟨wavHeader md.channel (md.bit_rate / 8) md.sample_rate data.length
      ++ data, ?_, ?_, ?_, ?_⟩
  · exact framing_eq_ok _ _ _ _ hch hsw1 hsw4 hsr hba hbr hdl
  · exact (declared_fields_wavHeader _ _ _ _ _ hnch hsw4 hrate).1
  · exact (declared_fields_wavHeader _ _ _ _ _ hnch hsw4 hrate).2.1
  · exact (declared_fields_wavHeader _ _ _ _ _ hnch hsw4 hrate).2.2

/-- Witness for the amended C5 at 16 kHz, 16-bit, mono metadata and a
two-byte buffer. -/
theorem c5_witness :
    (1 ≤ 1 ∧ 16 % 8 = 0 ∧ 8 ≤ 16 ∧ 16 ≤ 32 ∧ 0 < 16000
      ∧ 1 * (16 / 8) < 65536 ∧ 1 * 16000 * (16 / 8) < 4294967296
      ∧ 36 + ([7, 9] : List Nat).length < 4294967296) ∧
    (∃ bs, frameAudio
        { language := "en", channel := 1, bit_rate := 16, sample_rate := 16000 }
        [7, 9] = Except.ok bs
      ∧ declaredNChannels bs = 1
      ∧ declaredSampWidth bs = 16 / 8
      ∧ declaredFrameRate bs = 16000) :=
  ⟨by decide,
    c5_framing_declares_metadata
      { language := "en", channel := 1, bit_rate := 16, sample_rate := 16000 }
      [7, 9] (by decide) (by decide) (by decide) (by decide) (by decide)
      (by decide) (by decide) (by decide)⟩

/-- C6 counterexample: in the `mistralai_stt` provider variant the
`wave.open` block is not wrapped in any `try`, so with malformed metadata
(bit depth 40) its `async_process_audio_stream` lets the framing exception
propagate to the caller instead of returning an ERROR result. -/
theorem c6_counterexample :
    provider_process_audio_stream ⟨"k", "u", "voxtral-mini-latest", "", 0⟩
        { language := "en", channel := 1, bit_rate := 40, sample_rate := 16000 }
        [] (.stream [])
      = Except.error FramingError.badSampWidth :=
  rfl

/-- C6 (amended): when WAV header construction fails because of malformed
metadata, the `mistral_ai_stt` entity's `async_process_audio_stream`
converts the failure locally into a SpeechResult with status ERROR and
empty text, whereas the `mistralai_stt` provider variant propagates the
framing exception to the host. -/
theorem c6_framing_failure_entity_local (e : STTEntity)
    (p : MistralAISTTProvider) (md : SpeechMetadata)
    (stream : List (List Nat)) (outcome : SubmitOutcome) (err : FramingError)
    (hfail : frameAudio md stream.flatten = Except.error err) :
    async_process_audio_stream e md stream outcome
      = ({ text := "", result := .error }, e)
    ∧ provider_process_audio_stream p md stream outcome
      = Except.error err := by
  constructor <;>
    simp only [async_process_audio_stream, provider_process_audio_stream, hfail]

/-- Witness for the amended C6, at metadata with bit depth 40. -/
theorem c6_witness :
    frameAudio
        { language := "en", channel := 1, bit_rate := 40, sample_rate := 16000 }
        (List.flatten []) = Except.error FramingError.badSampWidth ∧
    async_process_audio_stream ⟨none, none, "voxtral-mini-latest"⟩
        { language := "en", channel := 1, bit_rate := 40, sample_rate := 16000 }
        [] (.stream [])
      = ({ text := "", result := .error }, ⟨none, none, "voxtral-mini-latest"⟩) ∧
    provider_process_audio_stream ⟨"k", "u", "voxtral-mini-latest", "", 0⟩
        { language := "en", channel := 1, bit_rate := 40, sample_rate := 16000 }
        [] (.stream [])
      = Except.error FramingError.badSampWidth :=
  ⟨rfl,
    (c6_framing_failure_entity_local ⟨none, none, "voxtral-mini-latest"⟩
      ⟨"k", "u", "voxtral-mini-latest", "", 0⟩
      { language := "en", channel := 1, bit_rate := 40, sample_rate := 16000 }
      [] (.stream []) FramingError.badSampWidth rfl).1,
    (c6_framing_failure_entity_local ⟨none, none, "voxtral-mini-latest"⟩
      ⟨"k", "u", "voxtral-mini-latest", "", 0⟩
      { language := "en", channel := 1, bit_rate := 40, sample_rate := 16000 }
      [] (.stream []) FramingError.badSampWidth rfl).2⟩

/-- C7: once the first terminal `done` event is observed, consumption ends
immediately: the loop never pulls any of the items after it (the traced
loop returns them unread), and the result of
`async_process_audio_stream` is the terminal event's text whatever those
later items are. -/
theorem c7_consumption_stops_at_first_done (e : STTEntity)
    (md : SpeechMetadata) (stream : List (List Nat))
    (pre : List TranscriptionEvent) (T : String) (post : List StreamItem)
    (hpre : ∀ ev ∈ pre, ev.isDone = false)
    (hframe : ∃ wav, frameAudio md stream.flatten = Except.ok wav) :
    consumeItemsTrace (pre.map Except.ok ++ Except.ok (.done T) :: post)
      = ({ text := T, result := .success }, post)
    ∧ async_process_audio_stream e md stream
        (.stream (pre.map Except.ok ++ Except.ok (.done T) :: post))
      = ({ text := T, result := .success }, e) := by
  obtain ⟨wav, hw⟩ := hframe
  constructor
  · rw [consumeItemsTrace_deltas_append pre hpre]
    rfl
  · simp only [async_process_audio_stream, hw, processOutcome]
    rw [consumeItems_deltas_append pre hpre]
    rfl

/-- Witness for C7: two items follow the terminal event and are returned
unread. -/
theorem c7_witness :
    (∀ ev ∈ [TranscriptionEvent.delta "he"], ev.isDone = false) ∧
    (∃ wav, frameAudio
        { language := "en", channel := 1, bit_rate := 16, sample_rate := 16000 }
        (List.flatten []) = Except.ok wav) ∧
    consumeItemsTrace ([TranscriptionEvent.delta "he"].map Except.ok ++
        Except.ok (.done "hi") ::
          [Except.ok (.delta "late"), Except.error ⟨"dropped"⟩])
      = ({ text := "hi", result := .success },
         [Except.ok (.delta "late"), Except.error ⟨"dropped"⟩]) ∧
    async_process_audio_stream ⟨none, none, "voxtral-mini-latest"⟩
        { language := "en", channel := 1, bit_rate := 16, sample_rate := 16000 }
        [] (.stream ([TranscriptionEvent.delta "he"].map Except.ok ++
          Except.ok (.done "hi") ::
            [Except.ok (.delta "late"), Except.error ⟨"dropped"⟩]))
      = ({ text := "hi", result := .success },
         ⟨none, none, "voxtral-mini-latest"⟩) :=
  ⟨by decide, ⟨_, rfl⟩,
    (c7_consumption_stops_at_first_done ⟨none, none, "voxtral-mini-latest"⟩
      { language := "en", channel := 1, bit_rate := 16, sample_rate := 16000 }
      [] [TranscriptionEvent.delta "he"] "hi"
      [Except.ok (.delta "late"), Except.error ⟨"dropped"⟩]
      (by decide) (by exact ⟨_, rfl⟩)).1,
    (c7_consumption_stops_at_first_done ⟨none, none, "voxtral-mini-latest"⟩
      { language := "en", channel := 1, bit_rate := 16, sample_rate := 16000 }
      [] [TranscriptionEvent.delta "he"] "hi"
      [Except.ok (.delta "late"), Except.error ⟨"dropped"⟩]
      (by decide) (by exact ⟨_, rfl⟩)).2⟩

/-- C8: the entity's declared capability surface is the fixed sets WAV
only, PCM only, 16000 Hz only, 16-bit only, mono only, and each accessor
returns the same constant list for every entity state. -/
theorem c8_capability_surface_constant (e e' : STTEntity) :
    supported_formats e = [AudioFormats.wav]
    ∧ supported_codecs e = [AudioCodecs.pcm]
    ∧ supported_bit_rates e = [AudioBitRates.bitrate16]
    ∧ supported_sample_rates e = [AudioSampleRates.sr16000]
    ∧ supported_channels e = [AudioChannels.mono]
    ∧ supported_formats e = supported_formats e'
    ∧ supported_codecs e = supported_codecs e'
    ∧ supported_bit_rates e = supported_bit_rates e'
    ∧ supported_sample_rates e = supported_sample_rates e'
    ∧ supported_channels e = supported_channels e' :=
  ⟨rfl, rfl, rfl, rfl, rfl, rfl, rfl, rfl, rfl, rfl⟩

/-- C9: `async_process_audio_stream` leaves the entity state (client
handle and model) unchanged, so a second call with the same audio buffer
and metadata starts from the same state, returns an equal result, and
constructs an equal transcription request. -/
theorem c9_stateless_idempotent (e : STTEntity) (md : SpeechMetadata)
    (stream : List (List Nat)) (outcome : SubmitOutcome) (wav : List Nat) :
    (async_process_audio_stream e md stream outcome).2 = e
    ∧ (async_process_audio_stream
          (async_process_audio_stream e md stream outcome).2 md stream
          outcome).1
      = (async_process_audio_stream e md stream outcome).1
    ∧ buildRequest (async_process_audio_stream e md stream outcome).2 md wav
      = buildRequest e md wav := by
  have h2 : (async_process_audio_stream e md stream outcome).2 = e := by
    rcases hf : frameAudio md stream.flatten with err | wav' <;>
      simp [async_process_audio_stream, hf]
  exact ⟨h2, by rw [h2], by rw [h2]⟩

/-- C10: the config flow stores the model the user entered in the entry's
`data`, the created entry has empty `options`, and the entity reads its
per-request model from `options` — so every transcription request built
from a flow-created entry uses the default model "voxtral-mini-latest"
regardless of the model entered at setup. -/
theorem c10_default_model_used (ui : UserInput) (v : ValidationOutcome)
    (entry : ConfigEntry) (md : SpeechMetadata) (wav : List Nat)
    (hcreate : async_step_api (some ui) v false = .createEntry entry) :
    entry.data.lookup CONF_MODEL = some ui.model
    ∧ entry.options = []
    ∧ (entityFromEntry entry).stt_model = DEFAULT_STT_MODEL
    ∧ (buildRequest (entityFromEntry entry) md wav).model
      = DEFAULT_STT_MODEL := by
  have hentry : entry
      = { title := DOMAIN, data := userInputData ui, options := [] } := by
    have h := hcreate
    simp only [async_step_api, Bool.false_eq_true, if_false,
      FlowResult.createEntry.injEq] at h
    exact h.symm
  subst hentry
  refine ⟨?_, rfl, rfl, rfl⟩
  simp [userInputData, CONF_MODEL, CONF_API_KEY, CONF_URL, List.lookup]

/-- Witness for C10: the user enters model "voxtral-mini-2507" at setup,
yet the request model is the default "voxtral-mini-latest". -/
theorem c10_witness :
    async_step_api (some ⟨"secret", "https://api.mistral.ai", "voxtral-mini-2507"⟩)
        .ok false
      = .createEntry
          { title := DOMAIN
            data := userInputData
              ⟨"secret", "https://api.mistral.ai", "voxtral-mini-2507"⟩
            options := [] } ∧
    (userInputData
        ⟨"secret", "https://api.mistral.ai", "voxtral-mini-2507"⟩).lookup
        CONF_MODEL = some "voxtral-mini-2507" ∧
    (entityFromEntry
        { title := DOMAIN
          data := userInputData
            ⟨"secret", "https://api.mistral.ai", "voxtral-mini-2507"⟩
          options := [] }).stt_model = DEFAULT_STT_MODEL ∧
    (buildRequest
        (entityFromEntry
          { title := DOMAIN
            data := userInputData
              ⟨"secret", "https://api.mistral.ai", "voxtral-mini-2507"⟩
            options := [] })
        { language := "en", channel := 1, bit_rate := 16, sample_rate := 16000 }
        []).model = DEFAULT_STT_MODEL :=
  ⟨rfl,
    (c10_default_model_used
      ⟨"secret", "https://api.mistral.ai", "voxtral-mini-2507"⟩ .ok
      { title := DOMAIN
        data := userInputData
          ⟨"secret", "https://api.mistral.ai", "voxtral-mini-2507"⟩
        options := [] }
      { language := "en", channel := 1, bit_rate := 16, sample_rate := 16000 }
      [] rfl).1,
    (c10_default_model_used
      ⟨"secret", "https://api.mistral.ai", "voxtral-mini-2507"⟩ .ok
      { title := DOMAIN
        data := userInputData
          ⟨"secret", "https://api.mistral.ai", "voxtral-mini-2507"⟩
        options := [] }
      { language := "en", channel := 1, bit_rate := 16, sample_rate := 16000 }
      [] rfl).2.2.1,
    (c10_default_model_used
      ⟨"secret", "https://api.mistral.ai", "voxtral-mini-2507"⟩ .ok
      { title := DOMAIN
        data := userInputData
          ⟨"secret", "https://api.mistral.ai", "voxtral-mini-2507"⟩
        options := [] }
      { language := "en", channel := 1, bit_rate := 16, sample_rate := 16000 }
      [] rfl).2.2.2⟩

end MistralSTT
